import Mathlib

/-!
Verification of the fan-control room controller.

Shallow embedding of `src/lib/RoomControl.js` (class `RoomControl`), the
per-room fan controller of the `fan-control` repository.

Modelling conventions:
* JS numbers (timestamps in milliseconds, humidity values, thresholds,
  durations in seconds) are modelled as `Int`.
* A possibly-absent JS value (`undefined` after a `_.get`) is an `Option`.
* JS truthiness tests on possibly-absent numbers (`if(humidity)`,
  `if(... minLightOnSince)`) are modelled by `jsTruthyNum`: both absence and
  the number `0` are falsy.
* JS `<` / `>` comparisons in which one side may be `undefined` are modelled
  by `jsLtNum` / `jsGtNum`, which are `false` whenever a side is absent
  (NaN-style comparison semantics).
* `moment().diff(t, 'millisecond')` is `now - t`; `ms` applied to a duration
  of `n` seconds is `n * 1000` milliseconds.
* `this.roomStatus` is `RoomStatus`; the maps `roomStatus.fans`,
  `roomStatus.lights` and `this.fansTrailing` are modelled as functions from
  ids.  `updateFans` contains no assignment into `roomStatus`, so the
  evaluation result carries the status through unchanged; it is part of the
  result type so that frame properties can be stated.
* Effects (MQTT publishes and actuator calls `fansMap[id][speed]()`) are
  collected in a list, in program order.
-/

namespace FanControl

/-- A `{value, since}` payload whose `value` is a string (fan `control` and
`speed` payloads, light status entries). Either field may be absent. -/
structure StrPayload where
  value : Option String
  since : Option Int
deriving DecidableEq

/-- A `{value, since}` payload whose `value` is a number (threshold / timing
overrides, humidity and temperature readings). Either field may be absent. -/
structure NumPayload where
  value : Option Int
  since : Option Int
deriving DecidableEq

/-- The per-fan slice of `roomStatus.fans[fanId]`: every field is an optional
nested payload, exactly as produced by the `_.set` mutators. -/
structure FanStatus where
  control : Option StrPayload
  speed : Option StrPayload
  minHumidityThreshold : Option NumPayload
  maxHumidityThreshold : Option NumPayload
  minRunTime : Option NumPayload
  lightTimeout : Option NumPayload
  trailingTime : Option NumPayload
deriving DecidableEq

/-- Static fan configuration (`fan` entries of `room.fans`): id, the default
thresholds / timings used as `_.get` fallbacks, and the trigger-light ids.
(`label` is used only in log strings and is omitted.) -/
structure FanConfig where
  id : String
  minHumidityThreshold : Int
  maxHumidityThreshold : Int
  minRunTime : Int
  lightTimeout : Int
  trailingTime : Int
  triggerLights : List String
deriving DecidableEq

/-- The `this.roomStatus` record: per-fan status map, per-light status map,
and the room-level humidity / temperature readings. -/
structure RoomStatus where
  fans : String → Option FanStatus
  lights : String → Option StrPayload
  humidity : Option NumPayload
  temperature : Option NumPayload

/-- An observable effect of one `updateFans` pass: an MQTT publish on the
`fanSpeed(room.id, fan.id)` topic carrying `{value: newSpeed}`, or an
actuator call `fansMap[fan.id][speed]()`. -/
inductive FanEffect where
  | publish (fanId : String) (value : String)
  | actuate (fanId : String) (speed : String)
deriving DecidableEq

/-- Result of an evaluation pass: the emitted effects in program order, the
updated `fansTrailing` map, and the (never mutated) room status. -/
structure EvalResult where
  effects : List FanEffect
  trailing : String → Bool
  status : RoomStatus

/-- JS truthiness of a possibly-absent number: `undefined` and `0` are falsy. -/
def jsTruthyNum : Option Int → Bool
  | none => false
  | some v => v != 0

/-- JS `a < b` where either side may be `undefined` (then the comparison is
`false`, as with NaN). Both branches that use it in the source guard the
defined side with a truthiness test first. -/
def jsLtNum : Option Int → Option Int → Bool
  | some a, some b => a < b
  | _, _ => false

/-- JS `a > b` with the same absence semantics as `jsLtNum`. -/
def jsGtNum : Option Int → Option Int → Bool
  | some a, some b => a > b
  | _, _ => false

/-- Accumulator of the trigger-light loop: earliest `since` among lights that
are `on`, latest `since` among lights that are not `on`, and whether any
trigger light is `on`. -/
structure LightScan where
  minLightOnSince : Option Int
  maxLightOffSince : Option Int
  anyLightOn : Bool
deriving DecidableEq

/-- One iteration of the `for(const lightId of fan.triggerLights)` loop. -/
def scanStep (lights : String → Option StrPayload) (s : LightScan)
    (lightId : String) : LightScan :=
  let lightValue := (lights lightId).bind StrPayload.value
  if lightValue = some "on" then
    let onSince := (lights lightId).bind StrPayload.since
    { minLightOnSince :=
        if !jsTruthyNum s.minLightOnSince || jsLtNum onSince s.minLightOnSince
        then onSince else s.minLightOnSince
      maxLightOffSince := s.maxLightOffSince
      anyLightOn := true }
  else
    let offSince := (lights lightId).bind StrPayload.since
    { s with maxLightOffSince :=
        if !jsTruthyNum s.maxLightOffSince || jsGtNum offSince s.maxLightOffSince
        then offSince else s.maxLightOffSince }

/-- The whole trigger-light loop, starting from `null/null/false`. -/
def scanTriggerLights (lights : String → Option StrPayload)
    (ids : List String) : LightScan :=
  ids.foldl (scanStep lights) ⟨none, none, false⟩

/-- The two conditional updates of `fansTrailing[fan.id]`: set it when some
trigger light has been on longer than `lightTimeout` seconds; clear it when no
trigger light is on, it was set, a latest off-`since` is recorded, and the
lights have been off longer than `trailingTime` seconds. A branch whose
guard fails leaves the previous value, exactly as the unexecuted assignments
do in the source. -/
def updatedTrailing (prev : Bool) (s : LightScan)
    (now lightTimeout trailingTime : Int) : Bool :=
  let afterOn :=
    if s.anyLightOn && jsTruthyNum s.minLightOnSince then
      match s.minLightOnSince with
      | some v => if now - v > lightTimeout * 1000 then true else prev
      | none => prev
    else prev
  if !s.anyLightOn && afterOn && jsTruthyNum s.maxLightOffSince then
    match s.maxLightOffSince with
    | some v => if now - v > trailingTime * 1000 then false else afterOn
    | none => afterOn
  else afterOn

/-- Resolution of `_.get(roomStatus, ['humidity', 'value'])`. -/
def resolvedHumidity (rs : RoomStatus) : Option Int :=
  rs.humidity.bind NumPayload.value

/-- Resolution of `_.get(roomStatus, ['fans', fan.id, 'minHumidityThreshold', 'value'], fan.minHumidityThreshold)`. -/
def resolvedMinHumidityThreshold (rs : RoomStatus) (fan : FanConfig) : Int :=
  (((rs.fans fan.id).bind FanStatus.minHumidityThreshold).bind NumPayload.value).getD
    fan.minHumidityThreshold

/-- Resolution of `_.get(roomStatus, ['fans', fan.id, 'maxHumidityThreshold', 'value'], fan.maxHumidityThreshold)`. -/
def resolvedMaxHumidityThreshold (rs : RoomStatus) (fan : FanConfig) : Int :=
  (((rs.fans fan.id).bind FanStatus.maxHumidityThreshold).bind NumPayload.value).getD
    fan.maxHumidityThreshold

/-- Resolution of `_.get(roomStatus, ['fans', fan.id, 'minRunTime', 'value'], fan.minRunTime)`. -/
def resolvedMinRunTime (rs : RoomStatus) (fan : FanConfig) : Int :=
  (((rs.fans fan.id).bind FanStatus.minRunTime).bind NumPayload.value).getD fan.minRunTime

/-- Resolution of `_.get(roomStatus, ['fans', fan.id, 'lightTimeout', 'value'], fan.lightTimeout)`. -/
def resolvedLightTimeout (rs : RoomStatus) (fan : FanConfig) : Int :=
  (((rs.fans fan.id).bind FanStatus.lightTimeout).bind NumPayload.value).getD fan.lightTimeout

/-- Resolution of `_.get(roomStatus, ['fans', fan.id, 'trailingTime', 'value'], fan.trailingTime)`. -/
def resolvedTrailingTime (rs : RoomStatus) (fan : FanConfig) : Int :=
  (((rs.fans fan.id).bind FanStatus.trailingTime).bind NumPayload.value).getD fan.trailingTime

/-- Resolution of `_.get(roomStatus, ['fans', fan.id, 'control', 'value'], 'manual')`. -/
def resolvedControl (rs : RoomStatus) (fan : FanConfig) : String :=
  (((rs.fans fan.id).bind FanStatus.control).bind StrPayload.value).getD "manual"

/-- Resolution of `_.get(roomStatus, ['fans', fan.id, 'speed', 'value'], 'off')`. -/
def resolvedSpeed (rs : RoomStatus) (fan : FanConfig) : String :=
  (((rs.fans fan.id).bind FanStatus.speed).bind StrPayload.value).getD "off"

/-- Resolution of `_.get(roomStatus, ['fans', fan.id, 'speed', 'since'], new Date())` —
the fallback is the current time. -/
def resolvedSpeedSince (rs : RoomStatus) (fan : FanConfig) (now : Int) : Int :=
  (((rs.fans fan.id).bind FanStatus.speed).bind StrPayload.since).getD now

/-- The `let newSpeed = 'off'; if(humidity) { ... }` cascade: `if(humidity)`
skips the whole block when the reading is absent or `0` (JS falsy); otherwise
the chain of comparisons against `maxHumidityThreshold`,
`downToMaxThreshold = maxHumidityThreshold - 10`, `minHumidityThreshold` and
`downToMinThreshold = minHumidityThreshold - 5`. -/
def humiditySpeed (humidity : Option Int) (speed : String) (minT maxT : Int) : String :=
  match humidity with
  | none => "off"
  | some h =>
    if h = 0 then "off"
    else if h > maxT then "max"
    else if speed = "max" ∧ h > maxT - 10 then "max"
    else if h > minT then "min"
    else if speed = "min" ∧ h > minT - 5 then "min"
    else "off"

/-- The value `fansTrailing[fan.id]` holds for this fan after the
light-trailing step of one evaluation of this fan (auto path, past the
min-run-time guard). -/
def trailingResult (rs : RoomStatus) (tr : String → Bool) (now : Int)
    (fan : FanConfig) : Bool :=
  updatedTrailing (tr fan.id) (scanTriggerLights rs.lights fan.triggerLights)
    now (resolvedLightTimeout rs fan) (resolvedTrailingTime rs fan)

/-- The committed `newSpeed` of the auto path: the humidity cascade result,
overridden to `min` whenever `fansTrailing[fan.id]` is set after the
light-trailing step (`if(fansTrailing[fan.id]) { newSpeed = 'min'; }`). -/
def committedSpeed (rs : RoomStatus) (tr : String → Bool) (now : Int)
    (fan : FanConfig) : String :=
  if trailingResult rs tr now fan then "min"
  else
    humiditySpeed (resolvedHumidity rs) (resolvedSpeed rs fan)
      (resolvedMinHumidityThreshold rs fan) (resolvedMaxHumidityThreshold rs fan)

/-- Pointwise update of the `fansTrailing` map. -/
def setTrailing (tr : String → Bool) (id : String) (b : Bool) : String → Bool :=
  fun x => if x = id then b else tr x

/-- One iteration of the `for(const fan of room.fans)` loop of `updateFans`:
manual mode actuates the recorded speed and stops; the min-run-time guard
skips the fan entirely; otherwise the humidity cascade, the light scan, the
trailing update, the conditional publish and the unconditional actuation.
The source body contains no assignment into `roomStatus`, so `status` is
passed through unchanged. -/
def evalFan (rs : RoomStatus) (tr : String → Bool) (now : Int)
    (fan : FanConfig) : EvalResult :=
  let speed := resolvedSpeed rs fan
  if resolvedControl rs fan = "manual" then
    ⟨[FanEffect.actuate fan.id speed], tr, rs⟩
  else if speed ≠ "off" ∧ now - resolvedSpeedSince rs fan now < resolvedMinRunTime rs fan * 1000 then
    ⟨[], tr, rs⟩
  else
    let t := trailingResult rs tr now fan
    let newSpeed := committedSpeed rs tr now fan
    ⟨(if speed ≠ newSpeed then [FanEffect.publish fan.id newSpeed] else []) ++
       [FanEffect.actuate fan.id newSpeed],
     setTrailing tr fan.id t, rs⟩

/-- One full `updateFans` pass: the `for(const fan of room.fans)` loop as
structural recursion over the configured fan list. Each iteration reads the
room status as the previous one left it (the body never writes it) and the
`fansTrailing` map as updated so far; effects accumulate in program order. -/
def updateFans (fans : List FanConfig) (rs : RoomStatus) (tr : String → Bool)
    (now : Int) : EvalResult :=
  match fans with
  | [] => ⟨[], tr, rs⟩
  | fan :: rest =>
    let r := evalFan rs tr now fan
    let rr := updateFans rest r.status r.trailing now
    ⟨r.effects ++ rr.effects, rr.trailing, rr.status⟩

/-- The empty object `_.set` creates at `roomStatus.fans[id]` when the id had
no entry yet. -/
def emptyFanStatus : FanStatus := ⟨none, none, none, none, none, none, none⟩

/-- `_.set(this.roomStatus, ['fans', id, <field>], data)`: updates the named
field of the entry at `id`, creating the entry if absent. All seven fan
mutators of `RoomControl` are instances of this with the corresponding field
update. -/
def setFanStatus (rs : RoomStatus) (id : String) (upd : FanStatus → FanStatus) :
    RoomStatus :=
  { rs with fans := fun x => if x = id then some (upd ((rs.fans x).getD emptyFanStatus)) else rs.fans x }

namespace RoomControl

/-- Mutator `minHumidityThreshold(id, data)`. -/
def minHumidityThreshold (rs : RoomStatus) (id : String) (data : NumPayload) : RoomStatus :=
  setFanStatus rs id (fun fs => { fs with minHumidityThreshold := some data })

/-- Mutator `maxHumidityThreshold(id, data)`. -/
def maxHumidityThreshold (rs : RoomStatus) (id : String) (data : NumPayload) : RoomStatus :=
  setFanStatus rs id (fun fs => { fs with maxHumidityThreshold := some data })

/-- Mutator `minRunTime(id, data)`. -/
def minRunTime (rs : RoomStatus) (id : String) (data : NumPayload) : RoomStatus :=
  setFanStatus rs id (fun fs => { fs with minRunTime := some data })

/-- Mutator `lightTimeout(id, data)`. -/
def lightTimeout (rs : RoomStatus) (id : String) (data : NumPayload) : RoomStatus :=
  setFanStatus rs id (fun fs => { fs with lightTimeout := some data })

/-- Mutator `trailingTime(id, data)`. -/
def trailingTime (rs : RoomStatus) (id : String) (data : NumPayload) : RoomStatus :=
  setFanStatus rs id (fun fs => { fs with trailingTime := some data })

/-- Mutator `control(id, data)`. -/
def control (rs : RoomStatus) (id : String) (data : StrPayload) : RoomStatus :=
  setFanStatus rs id (fun fs => { fs with control := some data })

/-- Mutator `speed(id, data)`. -/
def speed (rs : RoomStatus) (id : String) (data : StrPayload) : RoomStatus :=
  setFanStatus rs id (fun fs => { fs with speed := some data })

/-- Mutator `lights(id, data)`: replaces the whole entry at `id`. -/
def lights (rs : RoomStatus) (id : String) (data : StrPayload) : RoomStatus :=
  { rs with lights := fun x => if x = id then some data else rs.lights x }

/-- Mutator `temperature(data)`: replaces the room-level temperature payload. -/
def temperature (rs : RoomStatus) (data : NumPayload) : RoomStatus :=
  { rs with temperature := some data }

/-- Mutator `humidity(data)`: replaces the room-level humidity payload. -/
def humidity (rs : RoomStatus) (data : NumPayload) : RoomStatus :=
  { rs with humidity := some data }

end RoomControl

/-- Constructor initial entry of `roomStatus.fans[fan.id]`:
`{control: {value: 'manual'}, speed: {value: 'off'}}` — no `since` fields,
no overrides. -/
def initFanStatus : FanStatus :=
  { control := some ⟨some "manual", none⟩
    speed := some ⟨some "off", none⟩
    minHumidityThreshold := none
    maxHumidityThreshold := none
    minRunTime := none
    lightTimeout := none
    trailingTime := none }

/-- Constructor initial entry of `roomStatus.lights[light.id]`: the source
stores `{value: {value: 'off'}}` — the `value` field holds a nested object,
not a string, so the loop's `=== 'on'` test is false for it; and no `since`
field. Modelled as a payload whose string `value` is absent (the code only
ever compares it with the string `on`). -/
def initLightStatus : StrPayload := ⟨none, none⟩

/-- `roomStatus` as the constructor leaves it: initial entries for configured
fan and light ids, no humidity or temperature reading. -/
def initRoomStatus (fanIds lightIds : List String) : RoomStatus :=
  { fans := fun x => if x ∈ fanIds then some initFanStatus else none
    lights := fun x => if x ∈ lightIds then some initLightStatus else none
    humidity := none
    temperature := none }

/-- The humidity hysteresis cascade exactly as claim C1 words it, applied to
any present humidity reading (no truthiness test). This is the spec-side
definition, to be compared with the source-side `humiditySpeed`. -/
def claimedCascade (h : Int) (speed : String) (minT maxT : Int) : String :=
  if h > maxT then "max"
  else if speed = "max" ∧ h > maxT - 10 then "max"
  else if h > minT then "min"
  else if speed = "min" ∧ h > minT - 5 then "min"
  else "off"

/-! Concrete fixture states used by witnesses and counterexamples. -/

/-- A fan configured with the spec's scenario defaults and no trigger lights. -/
def fanA : FanConfig := ⟨"fan1", 60, 80, 120, 600, 300, []⟩

/-- A fan whose configured minimum threshold is negative, exercising the
truthiness edge of the humidity test. -/
def fanNeg : FanConfig := ⟨"fan1", -1, 100, 0, 0, 0, []⟩

/-- The scenario fan with one trigger light. -/
def fanL : FanConfig := ⟨"fan1", 60, 80, 120, 600, 300, ["l1"]⟩

/-- A per-fan status in auto mode at the given speed and speed timestamp. -/
def autoFanStatus (sp : String) (since : Option Int) : FanStatus :=
  { emptyFanStatus with
    control := some ⟨some "auto", none⟩
    speed := some ⟨some sp, since⟩ }

/-- A one-fan room status with the given humidity reading, the fan in auto
mode at the given speed, and no lights. -/
def oneFanStatus (h : Option Int) (sp : String) (since : Option Int) : RoomStatus :=
  { fans := fun x => if x = "fan1" then some (autoFanStatus sp since) else none
    lights := fun _ => none
    humidity := h.map (fun v => ⟨some v, none⟩)
    temperature := none }

/-- A one-fan room status without a `control` entry (so control resolves to
the default `manual`), a recorded speed of `max`, and a high humidity
reading. -/
def manualRoomStatus : RoomStatus :=
  { fans := fun x =>
      if x = "fan1" then some { emptyFanStatus with speed := some ⟨some "max", none⟩ }
      else none
    lights := fun _ => none
    humidity := some ⟨some 99, none⟩
    temperature := none }

/-- The manual fixture with a different humidity reading and a light switched
on, for the non-interference half of claim C4. -/
def manualRoomStatus2 : RoomStatus :=
  { manualRoomStatus with
    humidity := some ⟨some 10, none⟩
    lights := fun x => if x = "l1" then some ⟨some "on", some 1⟩ else none }

/-- The trailing map with no fan trailing. -/
def noTrailing : String → Bool := fun _ => false

/-- The trailing map with exactly the fixture fan trailing. -/
def fan1Trailing : String → Bool := fun x => x == "fan1"

/-! Helper lemmas about the three branches of the per-fan loop body and the
frame of one evaluation pass. -/

theorem evalFan_manual (rs : RoomStatus) (tr : String → Bool) (now : Int)
    (fan : FanConfig) (h : resolvedControl rs fan = "manual") :
    evalFan rs tr now fan = ⟨[FanEffect.actuate fan.id (resolvedSpeed rs fan)], tr, rs⟩ := by
  simp [evalFan, h]

theorem evalFan_skip (rs : RoomStatus) (tr : String → Bool) (now : Int)
    (fan : FanConfig) (h1 : resolvedControl rs fan ≠ "manual")
    (h2 : resolvedSpeed rs fan ≠ "off")
    (h3 : now - resolvedSpeedSince rs fan now < resolvedMinRunTime rs fan * 1000) :
    evalFan rs tr now fan = ⟨[], tr, rs⟩ := by
  simp [evalFan, h1, h2, h3]

theorem evalFan_auto (rs : RoomStatus) (tr : String → Bool) (now : Int)
    (fan : FanConfig) (h1 : resolvedControl rs fan ≠ "manual")
    (h2 : ¬(resolvedSpeed rs fan ≠ "off" ∧
        now - resolvedSpeedSince rs fan now < resolvedMinRunTime rs fan * 1000)) :
    evalFan rs tr now fan =
      ⟨(if resolvedSpeed rs fan ≠ committedSpeed rs tr now fan
         then [FanEffect.publish fan.id (committedSpeed rs tr now fan)] else []) ++
          [FanEffect.actuate fan.id (committedSpeed rs tr now fan)],
       setTrailing tr fan.id (trailingResult rs tr now fan), rs⟩ := by
  simp only [evalFan, if_neg h1, if_neg h2]

theorem evalFan_status (rs : RoomStatus) (tr : String → Bool) (now : Int)
    (fan : FanConfig) : (evalFan rs tr now fan).status = rs := by
  unfold evalFan
  dsimp only
  split
  · rfl
  · split
    · rfl
    · rfl

theorem evalFan_trailing_ne (rs : RoomStatus) (tr : String → Bool) (now : Int)
    (fan : FanConfig) (x : String) (hx : x ≠ fan.id) :
    (evalFan rs tr now fan).trailing x = tr x := by
  unfold evalFan
  dsimp only
  split
  · rfl
  · split
    · rfl
    · simp [setTrailing, hx]

theorem updateFans_status (fans : List FanConfig) (rs : RoomStatus)
    (tr : String → Bool) (now : Int) : (updateFans fans rs tr now).status = rs := by
  induction fans generalizing rs tr with
  | nil => rfl
  | cons fan rest ih =>
    show (updateFans rest (evalFan rs tr now fan).status
        (evalFan rs tr now fan).trailing now).status = rs
    rw [ih, evalFan_status]

theorem updateFans_trailing_not_mem (fans : List FanConfig) (rs : RoomStatus)
    (tr : String → Bool) (now : Int) (x : String)
    (hx : x ∉ fans.map FanConfig.id) :
    (updateFans fans rs tr now).trailing x = tr x := by
  induction fans generalizing rs tr with
  | nil => rfl
  | cons fan rest ih =>
    simp only [List.map_cons, List.mem_cons, not_or] at hx
    show (updateFans rest (evalFan rs tr now fan).status
        (evalFan rs tr now fan).trailing now).trailing x = tr x
    rw [ih _ _ hx.2, evalFan_trailing_ne _ _ _ _ _ hx.1]

/-- Updating `fansTrailing[fan.id]` a second time under the same scan and
timing inputs changes nothing: the trailing assignment is a fixed point after
one evaluation. -/
theorem updatedTrailing_idem (p : Bool) (s : LightScan) (now lt tt : Int) :
    updatedTrailing (updatedTrailing p s now lt tt) s now lt tt =
      updatedTrailing p s now lt tt := by
  rcases s with ⟨minOn, maxOff, anyOn⟩
  unfold updatedTrailing
  rcases anyOn <;> rcases minOn with _ | v <;> rcases maxOff with _ | w <;>
    simp [jsTruthyNum] <;> split_ifs <;> simp_all

/-- One per-fan evaluation reads the `fansTrailing` map only at the fan's own
id: starting a second evaluation from any map that agrees there with the
first evaluation's output yields the same effects and the same trailing value
for that fan. -/
theorem evalFan_stable (rs : RoomStatus) (tr tr' : String → Bool) (now : Int)
    (fan : FanConfig)
    (h : tr' fan.id = (evalFan rs tr now fan).trailing fan.id) :
    (evalFan rs tr' now fan).effects = (evalFan rs tr now fan).effects ∧
    (evalFan rs tr' now fan).trailing fan.id = (evalFan rs tr now fan).trailing fan.id := by
  by_cases h1 : resolvedControl rs fan = "manual"
  · rw [evalFan_manual rs tr now fan h1] at h ⊢
    rw [evalFan_manual rs tr' now fan h1]
    exact ⟨rfl, h⟩
  · by_cases h2 : resolvedSpeed rs fan ≠ "off" ∧
        now - resolvedSpeedSince rs fan now < resolvedMinRunTime rs fan * 1000
    · rw [evalFan_skip rs tr now fan h1 h2.1 h2.2] at h ⊢
      rw [evalFan_skip rs tr' now fan h1 h2.1 h2.2]
      exact ⟨rfl, h⟩
    · rw [evalFan_auto rs tr now fan h1 h2] at h ⊢
      rw [evalFan_auto rs tr' now fan h1 h2]
      have htr' : tr' fan.id = trailingResult rs tr now fan := by
        simpa [setTrailing] using h
      have hT : trailingResult rs tr' now fan = trailingResult rs tr now fan := by
        unfold trailingResult
        rw [htr']
        unfold trailingResult
        exact updatedTrailing_idem _ _ _ _ _
      have hC : committedSpeed rs tr' now fan = committedSpeed rs tr now fan := by
        simp [committedSpeed, hT]
      constructor
      · simp [hC]
      · simp [setTrailing, hT]

/-- Re-running a whole pass from the trailing map the first pass produced
(with the same status and clock) reproduces the first pass exactly, provided
the configured fan ids are distinct. -/
theorem updateFans_restart (fans : List FanConfig) (rs : RoomStatus) (now : Int)
    (hnd : (fans.map FanConfig.id).Nodup) (tr : String → Bool) :
    (updateFans fans rs (updateFans fans rs tr now).trailing now).effects =
      (updateFans fans rs tr now).effects ∧
    (updateFans fans rs (updateFans fans rs tr now).trailing now).trailing =
      (updateFans fans rs tr now).trailing := by
  induction fans generalizing tr with
  | nil => exact ⟨rfl, rfl⟩
  | cons fan rest ih =>
    simp only [List.map_cons, List.nodup_cons] at hnd
    obtain ⟨hni, hndr⟩ := hnd
    have hcons : ∀ tr₀ : String → Bool, updateFans (fan :: rest) rs tr₀ now =
        ⟨(evalFan rs tr₀ now fan).effects ++
           (updateFans rest rs (evalFan rs tr₀ now fan).trailing now).effects,
         (updateFans rest rs (evalFan rs tr₀ now fan).trailing now).trailing,
         (updateFans rest rs (evalFan rs tr₀ now fan).trailing now).status⟩ := by
      intro tr₀
      show (⟨(evalFan rs tr₀ now fan).effects ++ _, _, _⟩ : EvalResult) = _
      rw [evalFan_status]
    set r := evalFan rs tr now fan with hr
    set T1 := (updateFans rest rs r.trailing now).trailing with hT1
    have ha : T1 fan.id = r.trailing fan.id :=
      updateFans_trailing_not_mem rest rs r.trailing now fan.id hni
    have hstable := evalFan_stable rs tr T1 now fan ha
    have hfull : (evalFan rs T1 now fan).trailing = T1 := by
      funext x
      by_cases hx : x = fan.id
      · rw [hx, hstable.2, ← ha]
      · exact evalFan_trailing_ne rs T1 now fan x hx
    rw [hcons tr, hcons T1]
    dsimp only
    rw [hfull, hstable.1]
    have hihr := ih hndr r.trailing
    exact ⟨by rw [hihr.1], by rw [hihr.2]⟩

/-- One per-fan evaluation reads the room status only at this fan's entry,
the light map and the humidity reading: two statuses agreeing there produce
the same effects and the same trailing map. -/
theorem evalFan_agree (rs rs' : RoomStatus) (tr : String → Bool) (now : Int)
    (fan : FanConfig)
    (hf : rs'.fans fan.id = rs.fans fan.id)
    (hl : rs'.lights = rs.lights)
    (hh : rs'.humidity = rs.humidity) :
    (evalFan rs' tr now fan).effects = (evalFan rs tr now fan).effects ∧
    (evalFan rs' tr now fan).trailing = (evalFan rs tr now fan).trailing := by
  have h1 : resolvedControl rs' fan = resolvedControl rs fan := by
    simp [resolvedControl, hf]
  have h2 : resolvedSpeed rs' fan = resolvedSpeed rs fan := by
    simp [resolvedSpeed, hf]
  have h3 : resolvedSpeedSince rs' fan now = resolvedSpeedSince rs fan now := by
    simp [resolvedSpeedSince, hf]
  have h4 : resolvedMinRunTime rs' fan = resolvedMinRunTime rs fan := by
    simp [resolvedMinRunTime, hf]
  have h5 : trailingResult rs' tr now fan = trailingResult rs tr now fan := by
    simp [trailingResult, resolvedLightTimeout, resolvedTrailingTime, hf, hl]
  have h6 : committedSpeed rs' tr now fan = committedSpeed rs tr now fan := by
    simp [committedSpeed, h5, h2, resolvedHumidity,
      resolvedMinHumidityThreshold, resolvedMaxHumidityThreshold, hf, hh]
  by_cases hc : resolvedControl rs fan = "manual"
  · rw [evalFan_manual rs tr now fan hc, evalFan_manual rs' tr now fan (h1.trans hc), h2]
    exact ⟨rfl, rfl⟩
  · by_cases hg : resolvedSpeed rs fan ≠ "off" ∧
        now - resolvedSpeedSince rs fan now < resolvedMinRunTime rs fan * 1000
    · rw [evalFan_skip rs tr now fan hc hg.1 hg.2,
        evalFan_skip rs' tr now fan (h1 ▸ hc) (h2 ▸ hg.1) (h3 ▸ h4 ▸ hg.2)]
      exact ⟨rfl, rfl⟩
    · have hg' : ¬(resolvedSpeed rs' fan ≠ "off" ∧
          now - resolvedSpeedSince rs' fan now < resolvedMinRunTime rs' fan * 1000) := by
        rw [h2, h3, h4]; exact hg
      rw [evalFan_auto rs tr now fan hc hg, evalFan_auto rs' tr now fan (h1 ▸ hc) hg']
      rw [h2, h5, h6]
      exact ⟨rfl, rfl⟩

/-- The whole-pass version of `evalFan_agree`: statuses agreeing on every
configured fan's entry, the light map and the humidity reading produce
identical effects and identical trailing maps. -/
theorem updateFans_agree (fans : List FanConfig) (rs rs' : RoomStatus) (now : Int)
    (hf : ∀ fan ∈ fans, rs'.fans fan.id = rs.fans fan.id)
    (hl : rs'.lights = rs.lights)
    (hh : rs'.humidity = rs.humidity) (tr : String → Bool) :
    (updateFans fans rs' tr now).effects = (updateFans fans rs tr now).effects ∧
    (updateFans fans rs' tr now).trailing = (updateFans fans rs tr now).trailing := by
  induction fans generalizing tr with
  | nil => exact ⟨rfl, rfl⟩
  | cons fan rest ih =>
    have ha := evalFan_agree rs rs' tr now fan (hf fan (List.mem_cons_self _ _)) hl hh
    have hcons : ∀ (rs₀ : RoomStatus) (tr₀ : String → Bool),
        updateFans (fan :: rest) rs₀ tr₀ now =
        ⟨(evalFan rs₀ tr₀ now fan).effects ++
           (updateFans rest rs₀ (evalFan rs₀ tr₀ now fan).trailing now).effects,
         (updateFans rest rs₀ (evalFan rs₀ tr₀ now fan).trailing now).trailing,
         (updateFans rest rs₀ (evalFan rs₀ tr₀ now fan).trailing now).status⟩ := by
      intro rs₀ tr₀
      show (⟨(evalFan rs₀ tr₀ now fan).effects ++ _, _, _⟩ : EvalResult) = _
      rw [evalFan_status]
    rw [hcons rs tr, hcons rs' tr]
    dsimp only
    rw [ha.1, ha.2]
    have hihr := ih (fun f hfm => hf f (List.mem_cons_of_mem _ hfm))
      ((evalFan rs tr now fan).trailing)
    exact ⟨by rw [hihr.1], by rw [hihr.2]⟩

/-- The fan mutators change the fans map only at the targeted id. -/
theorem setFanStatus_ne (rs : RoomStatus) (id : String) (upd : FanStatus → FanStatus)
    (x : String) (hx : x ≠ id) : (setFanStatus rs id upd).fans x = rs.fans x := by
  simp [setFanStatus, hx]

/-- The trigger-light scan over a set of lights none of which is `on` and
none of which has a recorded `since` yields the initial accumulator: no
`anyLightOn`, no latest off-`since`. -/
theorem scanTriggerLights_no_on (lights : String → Option StrPayload)
    (ids : List String)
    (h : ∀ lid ∈ ids, (lights lid).bind StrPayload.value ≠ some "on" ∧
        (lights lid).bind StrPayload.since = none) :
    scanTriggerLights lights ids = ⟨none, none, false⟩ := by
  unfold scanTriggerLights
  induction ids with
  | nil => rfl
  | cons lid rest ih =>
    have hstep : scanStep lights ⟨none, none, false⟩ lid = ⟨none, none, false⟩ := by
      have h1 := (h lid (List.mem_cons_self _ _)).1
      have h2 := (h lid (List.mem_cons_self _ _)).2
      simp [scanStep, h1, h2, jsTruthyNum]
    show List.foldl (scanStep lights) (scanStep lights ⟨none, none, false⟩ lid) rest =
      ⟨none, none, false⟩
    rw [hstep]
    exact ih (fun l hl => h l (List.mem_cons_of_mem _ hl))

/-- A trailing flag that is set stays set when no trigger light is `on` and
no off-`since` is recorded: the clearing branch is never entered. -/
theorem updatedTrailing_no_off_since (now lt tt : Int) :
    updatedTrailing true ⟨none, none, false⟩ now lt tt = true := by
  simp [updatedTrailing, jsTruthyNum]

/-! Claim theorems. -/

/-- C1, counterexample: the claim is false as stated. With a humidity reading
that is present with value `0` and a negative configured minimum threshold,
the source skips the whole cascade (`if(humidity)` is false for `0`) and
commits `off`, while the cascade of the claim, applied to the present
reading, yields `min` (`0 > -1`). The fan is in auto mode, past the guard
(its speed is `off`), and not trailing, so the candidate equals the
committed speed. -/
theorem claim_C1_counterexample :
    resolvedHumidity (oneFanStatus (some 0) "off" (some 0)) = some 0 ∧
    resolvedControl (oneFanStatus (some 0) "off" (some 0)) fanNeg = "auto" ∧
    resolvedSpeed (oneFanStatus (some 0) "off" (some 0)) fanNeg = "off" ∧
    claimedCascade 0 "off" (-1) 100 = "min" ∧
    committedSpeed (oneFanStatus (some 0) "off" (some 0)) noTrailing 0 fanNeg = "off" ∧
    (updateFans [fanNeg] (oneFanStatus (some 0) "off" (some 0)) noTrailing 0).effects =
      [FanEffect.actuate "fan1" "off"] :=
  ⟨rfl, rfl, rfl, by decide, rfl, rfl⟩

/-- C1, amended: for every fan evaluated in auto mode past the min-run-time
guard with a humidity reading that is present *and nonzero* (the source's
`if(humidity)` truthiness test), the candidate newSpeed before the trailing
override is computed exactly by the claimed cascade. -/
theorem claim_C1 (rs : RoomStatus) (tr : String → Bool) (now : Int)
    (fan : FanConfig) (h : Int)
    (hh : resolvedHumidity rs = some h) (hne : h ≠ 0) :
    committedSpeed rs tr now fan =
      if trailingResult rs tr now fan then "min"
      else claimedCascade h (resolvedSpeed rs fan)
        (resolvedMinHumidityThreshold rs fan) (resolvedMaxHumidityThreshold rs fan) := by
  have hcas : humiditySpeed (resolvedHumidity rs) (resolvedSpeed rs fan)
      (resolvedMinHumidityThreshold rs fan) (resolvedMaxHumidityThreshold rs fan) =
      claimedCascade h (resolvedSpeed rs fan)
        (resolvedMinHumidityThreshold rs fan) (resolvedMaxHumidityThreshold rs fan) := by
    rw [hh]
    simp only [humiditySpeed, claimedCascade, if_neg hne]
  rw [committedSpeed, hcas]

/-- Witness for C1 at the spec's scenario values: humidity 85, thresholds
60/80, fan previously off. -/
theorem claim_C1_witness :
    committedSpeed (oneFanStatus (some 85) "off" (some 0)) noTrailing 0 fanA =
      if trailingResult (oneFanStatus (some 85) "off" (some 0)) noTrailing 0 fanA then "min"
      else claimedCascade 85 (resolvedSpeed (oneFanStatus (some 85) "off" (some 0)) fanA)
        (resolvedMinHumidityThreshold (oneFanStatus (some 85) "off" (some 0)) fanA)
        (resolvedMaxHumidityThreshold (oneFanStatus (some 85) "off" (some 0)) fanA) :=
  claim_C1 (oneFanStatus (some 85) "off" (some 0)) noTrailing 0 fanA 85 rfl (by decide)

/-- C2, counterexample: the claim is false as stated. With trailing active,
humidity 85 above the max threshold 80, an auto fan past the guard, the
committed speed is `min`, not `max`: the trailing override
`if(fansTrailing[fan.id]) newSpeed = 'min'` is unconditional and lowers the
`max` decision from humidity. -/
theorem claim_C2_counterexample :
    resolvedHumidity (oneFanStatus (some 85) "off" (some 0)) = some 85 ∧
    resolvedMaxHumidityThreshold (oneFanStatus (some 85) "off" (some 0)) fanA = 80 ∧
    trailingResult (oneFanStatus (some 85) "off" (some 0)) fan1Trailing 0 fanA = true ∧
    committedSpeed (oneFanStatus (some 85) "off" (some 0)) fan1Trailing 0 fanA = "min" ∧
    (updateFans [fanA] (oneFanStatus (some 85) "off" (some 0)) fan1Trailing 0).effects =
      [FanEffect.publish "fan1" "min", FanEffect.actuate "fan1" "min"] :=
  ⟨rfl, rfl, rfl, rfl, rfl⟩

/-- C2, amended: for every fan evaluated in auto mode past the min-run-time
guard, if `fansTrailing[fanId]` is true after the light-trailing step, the
committed newSpeed is exactly `min`: trailing overrides any humidity
decision, raising an `off` decision and also lowering a `max` decision. -/
theorem claim_C2 (rs : RoomStatus) (tr : String → Bool) (now : Int)
    (fan : FanConfig)
    (h1 : resolvedControl rs fan ≠ "manual")
    (h2 : ¬(resolvedSpeed rs fan ≠ "off" ∧
        now - resolvedSpeedSince rs fan now < resolvedMinRunTime rs fan * 1000))
    (ht : trailingResult rs tr now fan = true) :
    committedSpeed rs tr now fan = "min" ∧
    (evalFan rs tr now fan).effects =
      (if resolvedSpeed rs fan ≠ "min" then [FanEffect.publish fan.id "min"] else []) ++
        [FanEffect.actuate fan.id "min"] := by
  have hc : committedSpeed rs tr now fan = "min" := by
    simp [committedSpeed, ht]
  refine ⟨hc, ?_⟩
  rw [evalFan_auto rs tr now fan h1 h2]
  dsimp only
  rw [hc]

/-- Witness for C2: trailing active, humidity 85 above the max threshold. -/
theorem claim_C2_witness :
    committedSpeed (oneFanStatus (some 85) "off" (some 0)) fan1Trailing 0 fanA = "min" ∧
    (evalFan (oneFanStatus (some 85) "off" (some 0)) fan1Trailing 0 fanA).effects =
      (if resolvedSpeed (oneFanStatus (some 85) "off" (some 0)) fanA ≠ "min"
       then [FanEffect.publish fanA.id "min"] else []) ++
        [FanEffect.actuate fanA.id "min"] :=
  claim_C2 (oneFanStatus (some 85) "off" (some 0)) fan1Trailing 0 fanA
    (by decide) (by decide) rfl

/-- C3, confirmed: an auto fan with a non-`off` speed whose elapsed time
since `speed.since` is strictly below `minRunTime` seconds is skipped
entirely this cycle: no effect is emitted (no publish, no actuator call) and
the trailing map and room status are returned untouched. -/
theorem claim_C3 (rs : RoomStatus) (tr : String → Bool) (now : Int)
    (fan : FanConfig)
    (h1 : resolvedControl rs fan = "auto")
    (h2 : resolvedSpeed rs fan ≠ "off")
    (h3 : now - resolvedSpeedSince rs fan now < resolvedMinRunTime rs fan * 1000) :
    evalFan rs tr now fan = ⟨[], tr, rs⟩ :=
  evalFan_skip rs tr now fan (by rw [h1]; decide) h2 h3

/-- Witness for C3: speed `min` set at time 0, evaluated at 500 ms with
`minRunTime` 120 s. -/
theorem claim_C3_witness :
    evalFan (oneFanStatus (some 85) "min" (some 0)) noTrailing 500 fanA =
      ⟨[], noTrailing, oneFanStatus (some 85) "min" (some 0)⟩ :=
  claim_C3 (oneFanStatus (some 85) "min" (some 0)) noTrailing 500 fanA
    rfl (by decide) (by decide)

/-- C4, confirmed: a manual-mode fan is actuated with exactly the recorded
speed and nothing else happens: no publish, trailing and status untouched;
and the same holds for any status with the same per-fan map (humidity and
light state do not matter). -/
theorem claim_C4 (rs : RoomStatus) (tr : String → Bool) (now : Int)
    (fan : FanConfig) (h : resolvedControl rs fan = "manual") :
    evalFan rs tr now fan =
      ⟨[FanEffect.actuate fan.id (resolvedSpeed rs fan)], tr, rs⟩ ∧
    ∀ rs' : RoomStatus, rs'.fans = rs.fans →
      evalFan rs' tr now fan =
        ⟨[FanEffect.actuate fan.id (resolvedSpeed rs fan)], tr, rs'⟩ := by
  refine ⟨evalFan_manual rs tr now fan h, fun rs' hf => ?_⟩
  have hc : resolvedControl rs' fan = resolvedControl rs fan := by
    unfold resolvedControl; rw [hf]
  have hs : resolvedSpeed rs' fan = resolvedSpeed rs fan := by
    unfold resolvedSpeed; rw [hf]
  rw [evalFan_manual rs' tr now fan (hc.trans h), hs]

/-- Witness for C4: the default-`manual` fixture (no `control` entry) with
recorded speed `max`; the second fixture changes humidity and switches a
light on without altering the outcome. -/
theorem claim_C4_witness :
    evalFan manualRoomStatus noTrailing 0 fanA =
      ⟨[FanEffect.actuate fanA.id (resolvedSpeed manualRoomStatus fanA)], noTrailing,
        manualRoomStatus⟩ ∧
    evalFan manualRoomStatus2 noTrailing 0 fanA =
      ⟨[FanEffect.actuate fanA.id (resolvedSpeed manualRoomStatus fanA)], noTrailing,
        manualRoomStatus2⟩ :=
  ⟨(claim_C4 manualRoomStatus noTrailing 0 fanA rfl).1,
   (claim_C4 manualRoomStatus noTrailing 0 fanA rfl).2 manualRoomStatus2 rfl⟩

/-- C5, counterexample: the claim is false as stated. When the computed speed
differs from the recorded one, the pass publishes the change and actuates,
but it does *not* update `RoomStatus.fans[fanId].speed`: evaluated at time 7
with recorded speed `{value: off, since: 0}` and computed speed `max`, the
record afterwards is still `{value: off, since: 0}`, not the claimed
`{value: max, since: 7}` (no assignment into `roomStatus` exists in
`updateFans`; the record only changes when the retained publish is echoed
back through the `speed` mutator). -/
theorem claim_C5_counterexample :
    (updateFans [fanA] (oneFanStatus (some 85) "off" (some 0)) noTrailing 7).effects =
      [FanEffect.publish "fan1" "max", FanEffect.actuate "fan1" "max"] ∧
    (((updateFans [fanA] (oneFanStatus (some 85) "off" (some 0)) noTrailing 7).status.fans
        "fan1").bind FanStatus.speed) = some ⟨some "off", some 0⟩ ∧
    (⟨some "off", some 0⟩ : StrPayload) ≠ ⟨some "max", some 7⟩ :=
  ⟨rfl, rfl, by decide⟩

/-- C5, amended: for every fan evaluated in auto mode past the min-run-time
guard, a publish with the computed speed is emitted iff that speed differs
from the recorded one, the actuator is always commanded with the computed
speed, and the room status — including `speed` and `speed.since` — is left
entirely unchanged by the pass (the record is updated only when the retained
publish is routed back through the `speed` mutator). -/
theorem claim_C5 (rs : RoomStatus) (tr : String → Bool) (now : Int)
    (fan : FanConfig)
    (h1 : resolvedControl rs fan ≠ "manual")
    (h2 : ¬(resolvedSpeed rs fan ≠ "off" ∧
        now - resolvedSpeedSince rs fan now < resolvedMinRunTime rs fan * 1000)) :
    (evalFan rs tr now fan).effects =
      (if resolvedSpeed rs fan ≠ committedSpeed rs tr now fan
       then [FanEffect.publish fan.id (committedSpeed rs tr now fan)] else []) ++
        [FanEffect.actuate fan.id (committedSpeed rs tr now fan)] ∧
    (evalFan rs tr now fan).status = rs := by
  rw [evalFan_auto rs tr now fan h1 h2]
  exact ⟨rfl, rfl⟩

/-- Witness for C5 at the spec's scenario: speed `max` set at 0, humidity 50,
evaluated at 130 s (past the 120 s guard): the speed record differs from the
computed `off`, so a publish is emitted and the status is unchanged. -/
theorem claim_C5_witness :
    (evalFan (oneFanStatus (some 50) "max" (some 0)) noTrailing 130000 fanA).effects =
      (if resolvedSpeed (oneFanStatus (some 50) "max" (some 0)) fanA ≠
          committedSpeed (oneFanStatus (some 50) "max" (some 0)) noTrailing 130000 fanA
       then [FanEffect.publish fanA.id
          (committedSpeed (oneFanStatus (some 50) "max" (some 0)) noTrailing 130000 fanA)]
       else []) ++
        [FanEffect.actuate fanA.id
          (committedSpeed (oneFanStatus (some 50) "max" (some 0)) noTrailing 130000 fanA)] ∧
    (evalFan (oneFanStatus (some 50) "max" (some 0)) noTrailing 130000 fanA).status =
      oneFanStatus (some 50) "max" (some 0) :=
  claim_C5 (oneFanStatus (some 50) "max" (some 0)) noTrailing 130000 fanA
    (by decide) (by decide)

/-- C6, counterexample: the claim is false as stated. Running the pass twice
in a row with unchanged inputs (the first pass changes neither the status nor
— here — the trailing map) publishes `max` *again* on the second run, because
the pass never updates the recorded speed it compares against. -/
theorem claim_C6_counterexample :
    (updateFans [fanA] (oneFanStatus (some 85) "off" (some 0)) noTrailing 0).effects =
      [FanEffect.publish "fan1" "max", FanEffect.actuate "fan1" "max"] ∧
    (updateFans [fanA]
        (updateFans [fanA] (oneFanStatus (some 85) "off" (some 0)) noTrailing 0).status
        (updateFans [fanA] (oneFanStatus (some 85) "off" (some 0)) noTrailing 0).trailing
        0).effects =
      [FanEffect.publish "fan1" "max", FanEffect.actuate "fan1" "max"] :=
  ⟨rfl, rfl⟩

/-- C6, amended: the evaluation pass is idempotent in the weaker sense the
code supports: re-running it on its own outputs with the same clock (and
distinct configured fan ids) reproduces exactly the same effects — the same
publishes and actuator commands, not none — the same trailing map, and the
status (hence every fan's `speed.since`) is unchanged by both runs. A
publish-free second run happens only when the first run already published
nothing. -/
theorem claim_C6 (fans : List FanConfig) (rs : RoomStatus) (tr : String → Bool)
    (now : Int) (hnd : (fans.map FanConfig.id).Nodup) :
    (updateFans fans (updateFans fans rs tr now).status
        (updateFans fans rs tr now).trailing now).effects =
      (updateFans fans rs tr now).effects ∧
    (updateFans fans (updateFans fans rs tr now).status
        (updateFans fans rs tr now).trailing now).trailing =
      (updateFans fans rs tr now).trailing ∧
    (updateFans fans (updateFans fans rs tr now).status
        (updateFans fans rs tr now).trailing now).status = rs := by
  rw [updateFans_status fans rs tr now]
  exact ⟨(updateFans_restart fans rs now hnd tr).1,
    (updateFans_restart fans rs now hnd tr).2,
    updateFans_status fans rs ((updateFans fans rs tr now).trailing) now⟩

/-- Witness for C6 on the one-fan fixture. -/
theorem claim_C6_witness :
    (updateFans [fanA]
        (updateFans [fanA] (oneFanStatus (some 85) "off" (some 0)) noTrailing 0).status
        (updateFans [fanA] (oneFanStatus (some 85) "off" (some 0)) noTrailing 0).trailing
        0).effects =
      (updateFans [fanA] (oneFanStatus (some 85) "off" (some 0)) noTrailing 0).effects ∧
    (updateFans [fanA]
        (updateFans [fanA] (oneFanStatus (some 85) "off" (some 0)) noTrailing 0).status
        (updateFans [fanA] (oneFanStatus (some 85) "off" (some 0)) noTrailing 0).trailing
        0).trailing =
      (updateFans [fanA] (oneFanStatus (some 85) "off" (some 0)) noTrailing 0).trailing ∧
    (updateFans [fanA]
        (updateFans [fanA] (oneFanStatus (some 85) "off" (some 0)) noTrailing 0).status
        (updateFans [fanA] (oneFanStatus (some 85) "off" (some 0)) noTrailing 0).trailing
        0).status = oneFanStatus (some 85) "off" (some 0) :=
  claim_C6 [fanA] (oneFanStatus (some 85) "off" (some 0)) noTrailing 0 (by decide)

/-- C7, confirmed: every fan-status mutator is an instance of `setFanStatus`
(`control`, `speed`, `minHumidityThreshold`, `maxHumidityThreshold`,
`minRunTime`, `lightTimeout`, `trailingTime` merely pick the updated field),
and `setFanStatus` is a total function — the model of a call that never
throws. For an id not among the configured fan ids, the mutated status
produces exactly the same effects and trailing map on every evaluation pass
(the per-fan loop visits only configured fans), and no configured fan's
entry changes. -/
theorem claim_C7 (fans : List FanConfig) (rs : RoomStatus) (tr : String → Bool)
    (now : Int) (id : String) (upd : FanStatus → FanStatus)
    (h : id ∉ fans.map FanConfig.id) :
    (updateFans fans (setFanStatus rs id upd) tr now).effects =
      (updateFans fans rs tr now).effects ∧
    (updateFans fans (setFanStatus rs id upd) tr now).trailing =
      (updateFans fans rs tr now).trailing ∧
    ∀ fan ∈ fans, (setFanStatus rs id upd).fans fan.id = rs.fans fan.id := by
  have hf : ∀ fan ∈ fans, (setFanStatus rs id upd).fans fan.id = rs.fans fan.id := by
    intro fan hm
    refine setFanStatus_ne rs id upd fan.id (fun e => h ?_)
    exact e ▸ List.mem_map_of_mem FanConfig.id hm
  have hag := updateFans_agree fans rs (setFanStatus rs id upd) now hf rfl rfl tr
  exact ⟨hag.1, hag.2, hf⟩

/-- Witness for C7: a `minHumidityThreshold`-shaped update aimed at the
unknown id `ghost` leaves a one-fan room's evaluation unchanged. -/
theorem claim_C7_witness :
    (updateFans [fanA]
        (setFanStatus (oneFanStatus (some 85) "off" (some 0)) "ghost"
          (fun fs => { fs with minHumidityThreshold := some ⟨some 40, none⟩ }))
        noTrailing 0).effects =
      (updateFans [fanA] (oneFanStatus (some 85) "off" (some 0)) noTrailing 0).effects ∧
    (updateFans [fanA]
        (setFanStatus (oneFanStatus (some 85) "off" (some 0)) "ghost"
          (fun fs => { fs with minHumidityThreshold := some ⟨some 40, none⟩ }))
        noTrailing 0).trailing =
      (updateFans [fanA] (oneFanStatus (some 85) "off" (some 0)) noTrailing 0).trailing ∧
    (setFanStatus (oneFanStatus (some 85) "off" (some 0)) "ghost"
        (fun fs => { fs with minHumidityThreshold := some ⟨some 40, none⟩ })).fans
        fanA.id =
      (oneFanStatus (some 85) "off" (some 0)).fans fanA.id := by
  have hc := claim_C7 [fanA] (oneFanStatus (some 85) "off" (some 0)) noTrailing 0 "ghost"
    (fun fs => { fs with minHumidityThreshold := some ⟨some 40, none⟩ }) (by decide)
  exact ⟨hc.1, hc.2.1, hc.2.2 fanA (List.mem_cons_self _ _)⟩

/-- C8, confirmed non-interference with temperature: two room statuses that
differ only in the `temperature` field produce identical effects (the same
computed speeds, publishes and actuator commands), identical trailing maps,
and identical resulting fan maps under one evaluation pass; and the
`temperature` mutator stores the payload while touching nothing the
algorithm reads. -/
theorem claim_C8 (fans : List FanConfig) (fm : String → Option FanStatus)
    (lm : String → Option StrPayload) (hum t₁ t₂ : Option NumPayload)
    (tr : String → Bool) (now : Int) (rs : RoomStatus) (d : NumPayload) :
    (updateFans fans ⟨fm, lm, hum, t₁⟩ tr now).effects =
      (updateFans fans ⟨fm, lm, hum, t₂⟩ tr now).effects ∧
    (updateFans fans ⟨fm, lm, hum, t₁⟩ tr now).trailing =
      (updateFans fans ⟨fm, lm, hum, t₂⟩ tr now).trailing ∧
    (updateFans fans ⟨fm, lm, hum, t₁⟩ tr now).status.fans =
      (updateFans fans ⟨fm, lm, hum, t₂⟩ tr now).status.fans ∧
    (RoomControl.temperature rs d).temperature = some d ∧
    (RoomControl.temperature rs d).fans = rs.fans ∧
    (RoomControl.temperature rs d).lights = rs.lights ∧
    (RoomControl.temperature rs d).humidity = rs.humidity := by
  have hag := updateFans_agree fans ⟨fm, lm, hum, t₂⟩ ⟨fm, lm, hum, t₁⟩ now
    (fun _ _ => rfl) rfl rfl tr
  refine ⟨hag.1, hag.2, ?_, rfl, rfl, rfl, rfl⟩
  rw [updateFans_status, updateFans_status]

/-- C9, confirmed (implicit behaviour): a humidity reading present with value
`0` is treated exactly like an absent one — the whole cascade is skipped
(`if(humidity)` is falsy for `0`) and the candidate is `off` unless the
trailing override raises it to `min` — for every configuration, including
negative thresholds that `0` would exceed. -/
theorem claim_C9 (rs : RoomStatus) (tr : String → Bool) (now : Int)
    (fan : FanConfig)
    (hh : resolvedHumidity rs = some 0)
    (h1 : resolvedControl rs fan ≠ "manual")
    (h2 : ¬(resolvedSpeed rs fan ≠ "off" ∧
        now - resolvedSpeedSince rs fan now < resolvedMinRunTime rs fan * 1000)) :
    committedSpeed rs tr now fan =
      (if trailingResult rs tr now fan then "min" else "off") ∧
    (evalFan rs tr now fan).effects =
      (if resolvedSpeed rs fan ≠ (if trailingResult rs tr now fan then "min" else "off")
       then [FanEffect.publish fan.id
          (if trailingResult rs tr now fan then "min" else "off")]
       else []) ++
        [FanEffect.actuate fan.id
          (if trailingResult rs tr now fan then "min" else "off")] := by
  have hc : committedSpeed rs tr now fan =
      (if trailingResult rs tr now fan then "min" else "off") := by
    rw [committedSpeed, hh]
    simp [humiditySpeed]
  refine ⟨hc, ?_⟩
  rw [evalFan_auto rs tr now fan h1 h2]
  dsimp only
  rw [hc]

/-- Witness for C9 on the negative-threshold fan: humidity `0` exceeds the
configured minimum threshold `-1`, yet the committed speed is `off`. -/
theorem claim_C9_witness :
    committedSpeed (oneFanStatus (some 0) "off" (some 0)) noTrailing 3 fanNeg =
      (if trailingResult (oneFanStatus (some 0) "off" (some 0)) noTrailing 3 fanNeg
       then "min" else "off") ∧
    (evalFan (oneFanStatus (some 0) "off" (some 0)) noTrailing 3 fanNeg).effects =
      (if resolvedSpeed (oneFanStatus (some 0) "off" (some 0)) fanNeg ≠
          (if trailingResult (oneFanStatus (some 0) "off" (some 0)) noTrailing 3 fanNeg
           then "min" else "off")
       then [FanEffect.publish fanNeg.id
          (if trailingResult (oneFanStatus (some 0) "off" (some 0)) noTrailing 3 fanNeg
           then "min" else "off")]
       else []) ++
        [FanEffect.actuate fanNeg.id
          (if trailingResult (oneFanStatus (some 0) "off" (some 0)) noTrailing 3 fanNeg
           then "min" else "off")] :=
  claim_C9 (oneFanStatus (some 0) "off" (some 0)) noTrailing 3 fanNeg
    rfl (by decide) (by decide)

/-- C10, confirmed: if a fan is trailing, no trigger light is `on`, and no
trigger-light entry carries a `since` timestamp (the shape of the
constructor's initial light entries), then `maxLightOffSince` stays absent,
the clearing branch is never entered, the fan remains trailing after the
pass, and the committed speed is forced to `min`. -/
theorem claim_C10 (rs : RoomStatus) (tr : String → Bool) (now : Int)
    (fan : FanConfig)
    (h1 : resolvedControl rs fan ≠ "manual")
    (h2 : ¬(resolvedSpeed rs fan ≠ "off" ∧
        now - resolvedSpeedSince rs fan now < resolvedMinRunTime rs fan * 1000))
    (htr : tr fan.id = true)
    (hlights : ∀ lid ∈ fan.triggerLights,
        (rs.lights lid).bind StrPayload.value ≠ some "on" ∧
        (rs.lights lid).bind StrPayload.since = none) :
    trailingResult rs tr now fan = true ∧
    (evalFan rs tr now fan).trailing fan.id = true ∧
    committedSpeed rs tr now fan = "min" := by
  have hscan : scanTriggerLights rs.lights fan.triggerLights = ⟨none, none, false⟩ :=
    scanTriggerLights_no_on rs.lights fan.triggerLights hlights
  have ht : trailingResult rs tr now fan = true := by
    rw [trailingResult, hscan, htr]
    exact updatedTrailing_no_off_since now (resolvedLightTimeout rs fan)
      (resolvedTrailingTime rs fan)
  refine ⟨ht, ?_, by simp [committedSpeed, ht]⟩
  rw [evalFan_auto rs tr now fan h1 h2]
  simp [setTrailing, ht]

/-- Witness for C10: the constructor's initial room status (one fan, one
light) with the fan switched to auto by the `control` mutator and already
trailing; the light entry is the constructor's (`since` absent), so the fan
keeps trailing and is forced to `min`. -/
theorem claim_C10_witness :
    trailingResult
        (RoomControl.control (initRoomStatus ["fan1"] ["l1"]) "fan1" ⟨some "auto", none⟩)
        fan1Trailing 1000000 fanL = true ∧
    (evalFan
        (RoomControl.control (initRoomStatus ["fan1"] ["l1"]) "fan1" ⟨some "auto", none⟩)
        fan1Trailing 1000000 fanL).trailing fanL.id = true ∧
    committedSpeed
        (RoomControl.control (initRoomStatus ["fan1"] ["l1"]) "fan1" ⟨some "auto", none⟩)
        fan1Trailing 1000000 fanL = "min" :=
  claim_C10
    (RoomControl.control (initRoomStatus ["fan1"] ["l1"]) "fan1" ⟨some "auto", none⟩)
    fan1Trailing 1000000 fanL (by decide) (by decide) (by decide) (by decide)

end FanControl
